import Mathlib

/-!
# Verification of the DATA_COLLECTION scraper modules

Shallow embedding of the reusable pieces of the repository, as found in
`src/Scrapper/Modules` (ConfigManager, BrowserSetup, BrowserCleanup,
CookieHandler) and the two scrapers `src/Scrapper/BestiaryImageScrapper.py`
and `src/Scrapper/ConditionScrapper.py`.

Python exceptions are modelled with the `PyResult` type: a Python function
call either returns `.ok v` or ends in an exception `.exn msg`.  A `try`
block that swallows exceptions is embedded by matching on the `PyResult`
of the calls it guards.  Side effects on the filesystem are modelled with
an association list from paths to file contents; Python `dict`s are
modelled with association lists from keys to values (`store_set` embeds
Python `d[k] = v` item assignment, `store_get` embeds a `d.get(k)` /
`d[k]` lookup, where a Python dict assignment replaces an existing key in
place or appends a fresh key at the end).
-/

/-- Result of running a piece of Python code: either a returned value or a
raised exception carrying a message. -/
inductive PyResult (α : Type) where
  | ok (val : α)
  | exn (msg : String)

namespace PyResult

def map {α β : Type} (f : α → β) : PyResult α → PyResult β
  | .ok v => .ok (f v)
  | .exn e => .exn e

end PyResult

/-- Python dict item assignment `d[k] = v`: replace the first binding of
`k` in place, or append a fresh binding at the end.  Also used as the
model of writing a file at a path. -/
def store_set {α : Type} : List (String × α) → String → α → List (String × α)
  | [], k, v => [(k, v)]
  | (k', v') :: rest, k, v =>
      if k' = k then (k, v) :: rest else (k', v') :: store_set rest k v

/-- Python dict lookup `d[k]` / `k in d`: the first binding of `k`, if any. -/
def store_get {α : Type} : List (String × α) → String → Option α
  | [], _ => none
  | (k', v') :: rest, k => if k' = k then some v' else store_get rest k

theorem store_get_store_set_self {α : Type} (s : List (String × α)) (k : String) (v : α) :
    store_get (store_set s k v) k = some v := by
  induction s with
  | nil => simp [store_set, store_get]
  | cons hd tl ih =>
    obtain ⟨k', v'⟩ := hd
    by_cases h : k' = k
    · simp [store_set, store_get, h]
    · simp [store_set, store_get, h, ih]

theorem store_get_store_set_ne {α : Type} (s : List (String × α)) (k k' : String) (v : α)
    (h : k ≠ k') : store_get (store_set s k v) k' = store_get s k' := by
  induction s with
  | nil => simp [store_set, store_get, h]
  | cons hd tl ih =>
    obtain ⟨k₀, v₀⟩ := hd
    by_cases h0 : k₀ = k
    · subst h0
      simp [store_set, store_get, h]
    · simp [store_set, store_get, h0, ih]

/-- Keys occurring in a store. -/
def store_paths {α : Type} (s : List (String × α)) : List String := s.map Prod.fst

theorem mem_store_paths_store_set {α : Type} (s : List (String × α)) (k q : String) (v : α)
    (h : q ∈ store_paths (store_set s k v)) : q = k ∨ q ∈ store_paths s := by
  induction s with
  | nil => simpa [store_set, store_paths] using h
  | cons hd tl ih =>
    obtain ⟨k', v'⟩ := hd
    by_cases h0 : k' = k
    · simp [store_set, store_paths, h0] at h
      rcases h with h | h
      · exact Or.inl h
      · exact Or.inr (by simp [store_paths, h])
    · simp [store_set, store_paths, h0] at h
      rcases h with h | h
      · exact Or.inr (by simp [store_paths, h])
      · rcases ih (by simpa [store_paths] using h) with h1 | h1
        · exact Or.inl h1
        · exact Or.inr (by simp [store_paths]; right; simpa [store_paths] using h1)

theorem mem_store_set_of_mem {α : Type} (s : List (String × α)) (k q : String) (v w : α)
    (hq : (q, w) ∈ s) (hne : q ≠ k) : (q, w) ∈ store_set s k v := by
  induction s with
  | nil => cases hq
  | cons hd tl ih =>
    obtain ⟨k', v'⟩ := hd
    by_cases h0 : k' = k
    · have key : store_set ((k', v') :: tl) k v = (k, v) :: tl := by
        simp [store_set, h0]
      rw [key]
      rcases List.mem_cons.1 hq with h | h
      · exact absurd ((congrArg Prod.fst h).trans h0) hne
      · exact List.mem_cons_of_mem _ h
    · have key : store_set ((k', v') :: tl) k v = (k', v') :: store_set tl k v := by
        simp [store_set, h0]
      rw [key]
      rcases List.mem_cons.1 hq with h | h
      · rw [h]
        exact List.mem_cons_self _ _
      · exact List.mem_cons_of_mem _ (ih h)

theorem mem_store_set_self {α : Type} (s : List (String × α)) (k : String) (v : α) :
    (k, v) ∈ store_set s k v := by
  induction s with
  | nil => simp [store_set]
  | cons hd tl ih =>
    obtain ⟨k', v'⟩ := hd
    by_cases h0 : k' = k
    · simp [store_set, h0]
    · simp [store_set, h0]
      exact Or.inr ih

/-! ## sanitize_filename

`src/Scrapper/BestiaryImageScrapper.py` lines 77-87 and
`src/Scrapper/ConditionScrapper.py` lines 80-82:
`return re.sub(r'[\\/*?:"<>|]', "", name)` — delete every occurrence of a
character of the class, keep everything else. -/

/-- The character class of `re.sub(r'[\\/*?:"<>|]', "", name)`. -/
def isForbiddenChar (c : Char) : Bool :=
  c = '\\' || c = '/' || c = '*' || c = '?' || c = ':' || c = '"' ||
  c = '<' || c = '>' || c = '|'

/-- The scan `re.sub` performs: every character of the class is replaced by
the empty string, every other character is kept. -/
def sanitizeChars : List Char → List Char
  | [] => []
  | c :: cs => if isForbiddenChar c then sanitizeChars cs else c :: sanitizeChars cs

/-- `sanitize_filename` of both scrapers. -/
def sanitize_filename (name : String) : String := ⟨sanitizeChars name.data⟩

/-! ## download_image

`src/Scrapper/BestiaryImageScrapper.py` lines 90-137.  The body is one big
`try` whose handler logs and returns `False`.  On an HTTP 200 the file at
`save_path` is opened for writing (creating or truncating it), the response
body is read and written, and the function returns `True`; on any other
status the function logs and returns `False` without touching the
filesystem. -/

/-- An HTTP response as seen by `download_image`: a status code and the
outcome of `await response.read()`. -/
structure HttpResponse where
  status : Nat
  read : PyResult (List Nat)

/-- The filesystem: file contents (byte lists) indexed by path. -/
abbrev FileSystem := List (String × List Nat)

/-- `download_image(session, image_url, save_path)`.  `resp` is the outcome
of `session.get(image_url, headers=...)`.  Returns the Python return value
(always `.ok`: every exception is caught by the enclosing `try`) paired
with the filesystem after the call.  `open(save_path, 'wb')` creates the
file before the body bytes are available, so a failing `read` leaves an
empty file behind (that only happens in the status-200 branch). -/
def download_image (resp : PyResult HttpResponse) (save_path : String)
    (fs : FileSystem) : PyResult Bool × FileSystem :=
  match resp with
  | .exn _ => (.ok false, fs)
  | .ok r =>
      if r.status = 200 then
        let fs1 := store_set fs save_path []
        match r.read with
        | .ok bytes => (.ok true, store_set fs1 save_path bytes)
        | .exn _ => (.ok false, fs1)
      else
        (.ok false, fs)

/-! ### Theorems for C6 and C7 -/

theorem sanitizeChars_eq_filter (l : List Char) :
    sanitizeChars l = l.filter (fun c => !isForbiddenChar c) := by
  induction l with
  | nil => rfl
  | cons c cs ih =>
    by_cases h : isForbiddenChar c
    · simp [sanitizeChars, h, List.filter, ih]
    · simp [sanitizeChars, h, List.filter, ih]

/-- C6: the output of `sanitize_filename` never contains a character of the
class `\ / * ? : " < > |`, and the characters outside the class are kept,
in order (the output is exactly the input with the forbidden characters
deleted). -/
theorem sanitize_filename_no_forbidden (name : String) :
    ((sanitize_filename name).data.all fun c => !isForbiddenChar c) = true ∧
    (sanitize_filename name).data = name.data.filter fun c => !isForbiddenChar c := by
  constructor
  · rw [List.all_eq_true]
    intro c hc
    have h : (sanitize_filename name).data = name.data.filter fun c => !isForbiddenChar c := by
      simpa [sanitize_filename] using sanitizeChars_eq_filter name.data
    rw [h] at hc
    exact (List.mem_filter.1 hc).2
  · simpa [sanitize_filename] using sanitizeChars_eq_filter name.data

/-- C7: a non-200 response makes `download_image` return `False` without
raising and without touching the filesystem; `download_image` never lets an
exception escape; and the filesystem can only change when the response
arrived with status 200. -/
theorem download_image_non_200 :
    (∀ (r : HttpResponse) (p : String) (fs : FileSystem), r.status ≠ 200 →
        download_image (.ok r) p fs = (.ok false, fs)) ∧
    (∀ (resp : PyResult HttpResponse) (p : String) (fs : FileSystem),
        ∃ b, (download_image resp p fs).1 = .ok b) ∧
    (∀ (resp : PyResult HttpResponse) (p : String) (fs : FileSystem),
        (download_image resp p fs).2 ≠ fs →
        ∃ r, resp = .ok r ∧ r.status = 200) := by
  refine ⟨?_, ?_, ?_⟩
  · intro r p fs h
    simp [download_image, h]
  · intro resp p fs
    match resp with
    | .exn e => exact ⟨false, rfl⟩
    | .ok r =>
      by_cases h : r.status = 200
      · match hr : r.read with
        | .ok bytes => exact ⟨true, by simp [download_image, h, hr]⟩
        | .exn e => exact ⟨false, by simp [download_image, h, hr]⟩
      · exact ⟨false, by simp [download_image, h]⟩
  · intro resp p fs h
    match resp with
    | .exn e => simp [download_image] at h
    | .ok r =>
      by_cases hs : r.status = 200
      · exact ⟨r, rfl, hs⟩
      · simp [download_image, hs] at h

/-- Witness for C7 at a concrete input: a 404 response on an empty
filesystem returns `False` and creates no file. -/
theorem download_image_non_200_witness :
    download_image (.ok ⟨404, .ok []⟩) "Data/Bestiary/Images/tokens/x.webp" [] =
      (.ok false, []) :=
  download_image_non_200.1 ⟨404, .ok []⟩ "Data/Bestiary/Images/tokens/x.webp" []
    (by decide)

/-! ## JSON values

Model of the Python/JSON values the scrapers persist and the ConfigManager
stores: `None`, booleans, numbers, strings, lists and dicts (dicts as
ordered association lists, matching CPython's insertion-ordered dicts). -/

inductive JValue where
  | null
  | bool (b : Bool)
  | num (n : Int)
  | str (s : String)
  | arr (elems : List JValue)
  | obj (fields : List (String × JValue))

/-- Python `str.lower()` (the scraped names are ASCII). -/
def py_lower (s : String) : String := ⟨s.data.map Char.toLower⟩

/-! ## ConditionScrapper: per-item loop and persistence

`src/Scrapper/ConditionScrapper.py`.  The dataclasses `Effect` and
`ConditionData` (lines 64-77), `save_condition_data` (lines 272-288) and
the per-item loop of `main` (lines 355-375). -/

structure Effect where
  name : String
  description : String

structure ConditionData where
  name : String
  source : Option String
  pages : Option String
  description : Option String
  effects : List Effect
  table_data : Option JValue
  type : Option String

/-- `dataclasses.asdict` on an `Effect`. -/
def effectToJson (e : Effect) : JValue :=
  .obj [("name", .str e.name), ("description", .str e.description)]

def optStr : Option String → JValue
  | some s => .str s
  | none => .null

/-- `dataclasses.asdict` on a `ConditionData`, in dataclass field order —
this is what `json.dump` writes. -/
def conditionToJson (c : ConditionData) : JValue :=
  .obj [("name", .str c.name),
        ("source", optStr c.source),
        ("pages", optStr c.pages),
        ("description", optStr c.description),
        ("effects", .arr (c.effects.map effectToJson)),
        ("table_data", match c.table_data with | some t => t | none => .null),
        ("type", optStr c.type)]

/-- The file name `save_condition_data` builds:
`f"{sanitize_filename(cond.name.lower())}_{sanitize_filename(cond.source.lower()) if cond.source else "unknown"}.json"`. -/
def condition_filename (c : ConditionData) : String :=
  sanitize_filename (py_lower c.name) ++ "_" ++
    (match c.source with
     | some s => sanitize_filename (py_lower s)
     | none => "unknown") ++ ".json"

/-- `os.path.join("Data/Condition", filename)`. -/
def condition_path (c : ConditionData) : String :=
  "Data/Condition/" ++ condition_filename c

/-- Files written by the scraper: JSON documents indexed by path.  Each
write is `open(path, 'w')` followed by one `json.dump` of the whole
record, so a completed write holds the full serialized record. -/
abbrev JsonStore := List (String × JValue)

/-- `save_condition_data(cond)`: serialize the record and write it to its
path (lines 272-288). -/
def save_condition_data (c : ConditionData) (fs : JsonStore) : JsonStore :=
  store_set fs (condition_path c) (conditionToJson c)

/-- What happens at one index of the per-item loop of `main`:
`success c` — `process_condition` returned a record `c` (which is then
saved immediately); `failure` — an exception was raised and caught by the
per-item `except` (or `process_condition` returned `None`), nothing is
saved; `crash` — the process dies hard at this item, the run stops with
the files written so far on disk. -/
inductive ItemOutcome where
  | success (c : ConditionData)
  | failure
  | crash

/-- The per-item loop of `main` (lines 355-375): each record is saved
immediately after extraction, before the next index is processed; a caught
exception advances to the next index; a hard crash stops the run. -/
def scrape_loop : List ItemOutcome → JsonStore → JsonStore
  | [], fs => fs
  | .crash :: _, fs => fs
  | .failure :: rest, fs => scrape_loop rest fs
  | .success c :: rest, fs => scrape_loop rest (save_condition_data c fs)

/-- The records successfully extracted in a run. -/
def successes : List ItemOutcome → List ConditionData
  | [] => []
  | .success c :: rest => c :: successes rest
  | .failure :: rest => successes rest
  | .crash :: rest => successes rest

/-- No hard crash anywhere in the run. -/
def crashFree : List ItemOutcome → Bool
  | [] => true
  | .crash :: _ => false
  | .failure :: rest => crashFree rest
  | .success _ :: rest => crashFree rest

theorem scrape_loop_append_failure (pre : List ItemOutcome) (post : List ItemOutcome)
    (fs : JsonStore) :
    scrape_loop (pre ++ .failure :: post) fs = scrape_loop (pre ++ post) fs := by
  induction pre generalizing fs with
  | nil => rfl
  | cons hd tl ih =>
    cases hd with
    | success c => simpa [scrape_loop] using ih (save_condition_data c fs)
    | failure => simpa [scrape_loop] using ih fs
    | crash => rfl

theorem scrape_loop_append_crash (pre : List ItemOutcome) (post : List ItemOutcome)
    (fs : JsonStore) :
    scrape_loop (pre ++ .crash :: post) fs = scrape_loop pre fs := by
  induction pre generalizing fs with
  | nil => rfl
  | cons hd tl ih =>
    cases hd with
    | success c => simpa [scrape_loop] using ih (save_condition_data c fs)
    | failure => simpa [scrape_loop] using ih fs
    | crash => rfl

theorem scrape_loop_eq_foldl (l : List ItemOutcome) (fs : JsonStore)
    (h : crashFree l = true) :
    scrape_loop l fs = (successes l).foldl (fun s c => save_condition_data c s) fs := by
  induction l generalizing fs with
  | nil => rfl
  | cons hd tl ih =>
    cases hd with
    | success c =>
      simp [scrape_loop, successes, List.foldl]
      exact ih (save_condition_data c fs) (by simpa [crashFree] using h)
    | failure =>
      simp [scrape_loop, successes]
      exact ih fs (by simpa [crashFree] using h)
    | crash => simp [crashFree] at h

theorem foldl_save_preserves (cs : List ConditionData) (s : JsonStore) (p : String)
    (v : JValue) (hmem : (p, v) ∈ s) (hp : p ∉ cs.map condition_path) :
    (p, v) ∈ cs.foldl (fun s c => save_condition_data c s) s := by
  induction cs generalizing s with
  | nil => exact hmem
  | cons c rest ih =>
    have hne : p ≠ condition_path c := by
      intro h
      exact hp (by simp [h])
    have hstep : (p, v) ∈ save_condition_data c s :=
      mem_store_set_of_mem s (condition_path c) p (conditionToJson c) v hmem hne
    have hp' : p ∉ rest.map condition_path := fun hmem' =>
      hp (List.mem_cons_of_mem _ hmem')
    exact ih (save_condition_data c s) hstep hp'

theorem mem_foldl_save (cs : List ConditionData) (s : JsonStore) (c : ConditionData)
    (hc : c ∈ cs) (hnodup : (cs.map condition_path).Nodup) :
    (condition_path c, conditionToJson c) ∈
      cs.foldl (fun s c => save_condition_data c s) s := by
  induction cs generalizing s with
  | nil => cases hc
  | cons c0 rest ih =>
    rw [List.map_cons] at hnodup
    have hnodup' := List.nodup_cons.1 hnodup
    rcases List.mem_cons.1 hc with h | h
    · subst h
      have hmem : (condition_path c, conditionToJson c) ∈ save_condition_data c s :=
        mem_store_set_self s (condition_path c) (conditionToJson c)
      exact foldl_save_preserves rest (save_condition_data c s) _ _ hmem hnodup'.1
    · exact ih (save_condition_data c0 s) h hnodup'.2

theorem scrape_loop_paths (l : List ItemOutcome) (fs : JsonStore) (q : String)
    (h : q ∈ store_paths (scrape_loop l fs)) :
    q ∈ store_paths fs ∨ q ∈ (successes l).map condition_path := by
  induction l generalizing fs with
  | nil => exact Or.inl h
  | cons hd tl ih =>
    cases hd with
    | success c =>
      rcases ih (save_condition_data c fs) (by simpa [scrape_loop] using h) with h1 | h1
      · rcases mem_store_paths_store_set fs (condition_path c) q (conditionToJson c) h1 with
          h2 | h2
        · exact Or.inr (by simp [successes, h2])
        · exact Or.inl h2
      · exact Or.inr (by simp [successes]; right; simpa using h1)
    | failure =>
      rcases ih fs (by simpa [scrape_loop] using h) with h1 | h1
      · exact Or.inl h1
      · exact Or.inr (by simpa [successes] using h1)
    | crash => exact Or.inl (by simpa [scrape_loop] using h)

/-- C9: in the per-item loop, (1) a caught exception at one index just
advances to the next index (the run is what it would have been without
that index); (2) a hard crash at index `k` leaves exactly the state the
run had after the items before `k` — later items never run; (3) a
crash-free run writes the serialized record of each extracted item, in
order; (4) after a crash at index `k` (run started on an empty store, with
the items' target paths pairwise distinct), the full valid JSON document
of every item completed before `k` is on disk; and (5) only paths of items
completed before the crash exist — items after the crash are absent. -/
theorem scrape_loop_crash_safety :
    (∀ (pre post : List ItemOutcome) (fs : JsonStore),
        scrape_loop (pre ++ .failure :: post) fs = scrape_loop (pre ++ post) fs) ∧
    (∀ (pre post : List ItemOutcome) (fs : JsonStore),
        scrape_loop (pre ++ .crash :: post) fs = scrape_loop pre fs) ∧
    (∀ (l : List ItemOutcome) (fs : JsonStore), crashFree l = true →
        scrape_loop l fs =
          (successes l).foldl (fun s c => save_condition_data c s) fs) ∧
    (∀ (pre post : List ItemOutcome) (c : ConditionData), crashFree pre = true →
        ((successes pre).map condition_path).Nodup →
        c ∈ successes pre →
        (condition_path c, conditionToJson c) ∈ scrape_loop (pre ++ .crash :: post) []) ∧
    (∀ (pre post : List ItemOutcome) (q : String),
        q ∈ store_paths (scrape_loop (pre ++ .crash :: post) []) →
        q ∈ (successes pre).map condition_path) := by
  refine ⟨scrape_loop_append_failure, scrape_loop_append_crash, scrape_loop_eq_foldl,
    ?_, ?_⟩
  · intro pre post c hcf hnd hc
    rw [scrape_loop_append_crash, scrape_loop_eq_foldl pre [] hcf]
    exact mem_foldl_save (successes pre) [] c hc hnd
  · intro pre post q h
    rw [scrape_loop_append_crash] at h
    rcases scrape_loop_paths pre [] q h with h1 | h1
    · simp [store_paths] at h1
    · exact h1

/-- A concrete record for witnesses. -/
def condBlinded : ConditionData :=
  ⟨"Blinded", some "PHB", some "290", none, [], none, some "Condition"⟩

/-- A second concrete record for witnesses. -/
def condCharmed : ConditionData :=
  ⟨"Charmed", none, none, none, [⟨"Effect", "cannot attack"⟩], none, none⟩

/-- A third concrete record for witnesses (the item after the crash). -/
def condPoisoned : ConditionData :=
  ⟨"Poisoned", some "PHB", none, none, [], none, none⟩

/-- Witness for C9 at a concrete run: items `[success, failure, success]`,
then a crash, then one more item; the first record's file is on disk. -/
theorem scrape_loop_crash_safety_witness :
    crashFree [.success condBlinded, .failure, .success condCharmed] = true ∧
    ((successes [.success condBlinded, .failure, .success condCharmed]).map
        condition_path).Nodup ∧
    condBlinded ∈ successes [.success condBlinded, .failure, .success condCharmed] ∧
    (condition_path condBlinded, conditionToJson condBlinded) ∈
      scrape_loop ([.success condBlinded, .failure, .success condCharmed] ++
        .crash :: [.success condPoisoned]) [] :=
  ⟨rfl, by decide, List.mem_cons_self _ _,
    scrape_loop_crash_safety.2.2.2.1
      [.success condBlinded, .failure, .success condCharmed]
      [.success condPoisoned] condBlinded rfl (by decide) (List.mem_cons_self _ _)⟩

/-! ## CookieHandler

`src/Scrapper/Modules/CookieHandler.py`: `detect_consent_elements`
(lines 147-192), `apply_javascript_strategy` (lines 194-215),
`click_accept_buttons` (lines 217-251) and `handle_consent`
(lines 253-306). -/

/-- One visible consent-handling attempt made on the page: running one of
the JavaScript strategy templates, or the direct accept-button click pass. -/
inductive ConsentAction where
  | jsStrategy (strategy : String)
  | clickAccept

/-- The environment `handle_consent` runs against: the elements the
consent scan finds on the page, and the outcome of each strategy were it
to be applied (`execute_script` either returns a value or raises;
`click_accept_buttons` catches everything internally and returns a Bool). -/
structure ConsentEnv where
  detected : List Nat
  set_cookies : PyResult Bool
  find_and_click : PyResult Bool
  click_accept_buttons : Bool
  hide_elements : PyResult Bool
  aggressive_cleanup : PyResult Bool

/-- `apply_javascript_strategy`: run the template's script; any exception
is caught, logged at debug level, and turned into `False`. -/
def apply_javascript_strategy (r : PyResult Bool) : Bool :=
  match r with
  | .ok b => b
  | .exn _ => false

/-- `detect_consent_elements`: every selector is queried with a very short
wait; a selector that times out or errors contributes nothing (`except:
continue`); the matches are concatenated — first the CSS selectors of both
selector lists, then the XPath selectors. -/
def detect_consent_elements (query : String → List Nat)
    (css_selectors xpath_selectors : List String) : List Nat :=
  (css_selectors.map query).flatten ++ (xpath_selectors.map query).flatten

/-- `handle_consent`, returning the Python return value together with the
trace of consent strategies actually attempted.  When the scan found no
element, the code logs "No cookie consent elements detected" and returns
`True` at once; otherwise it runs the five-stage cascade (stage 1's result
is ignored, stages 2 and 3 short-circuit on success, stages 4 and 5 are
best-effort and the function returns `True` regardless). -/
def handle_consent (env : ConsentEnv) : Bool × List ConsentAction :=
  if env.detected.isEmpty then
    (true, [])
  else
    let acts2 : List ConsentAction :=
      [.jsStrategy "set_cookies", .jsStrategy "find_and_click"]
    if apply_javascript_strategy env.find_and_click then
      (true, acts2)
    else if env.click_accept_buttons then
      (true, acts2 ++ [.clickAccept])
    else
      (true, acts2 ++ [.clickAccept, .jsStrategy "hide_elements",
        .jsStrategy "aggressive_cleanup"])

/-- C5: when the consent scan detects zero elements, `handle_consent`
returns `True` and attempts no clicks and no JavaScript strategies; and on
an empty DOM (every selector query yields no elements) the scan does
detect zero elements. -/
theorem handle_consent_no_elements :
    (∀ env : ConsentEnv, env.detected = [] → handle_consent env = (true, [])) ∧
    (∀ (query : String → List Nat) (css xpath : List String),
        (∀ s, query s = []) → detect_consent_elements query css xpath = []) := by
  constructor
  · intro env h
    simp [handle_consent, h]
  · intro query css xpath h
    have key : ∀ l : List String, (l.map query).flatten = [] := by
      intro l
      induction l with
      | nil => rfl
      | cons hd tl ih => simp [h, ih]
    simp [detect_consent_elements, key]

/-- Witness for C5: a concrete environment in which the scan found
nothing; `handle_consent` is a no-op returning `True`, and the scan on an
empty DOM finds nothing. -/
theorem handle_consent_no_elements_witness :
    handle_consent ⟨[], .ok true, .ok true, true, .ok true, .ok true⟩ = (true, []) ∧
    detect_consent_elements (fun _ => []) ["div.cookie-banner"] [] = [] :=
  ⟨handle_consent_no_elements.1 ⟨[], .ok true, .ok true, true, .ok true, .ok true⟩ rfl,
    handle_consent_no_elements.2 (fun _ => []) ["div.cookie-banner"] [] (fun _ => rfl)⟩

/-! ## BrowserSetup

`src/Scrapper/Modules/BrowserSetup.py`: `setup_chrome_options`
(lines 98-123) and `create_driver` (lines 125-173). -/

/-- The three driver backends `create_driver` can try, in cascade order. -/
inductive Backend where
  | undetected
  | selenium_webdriver_manager
  | selenium_system
deriving DecidableEq

/-- The environment `create_driver` runs in: which driver libraries
imported successfully at module load, and what each backend's construction
attempt would yield (a driver handle or an exception), plus the result of
`get_chrome_executable()`. -/
structure DriverEnv where
  undetected_available : Bool
  selenium_available : Bool
  webdriver_manager_available : Bool
  uc_chrome : PyResult Nat
  wdm_chrome : PyResult Nat
  chrome_executable : Option String
  system_chrome : PyResult Nat

/-- Last resort (lines 160-170): selenium with the system ChromeDriver; if
it is unavailable or fails, fall through to
`raise RuntimeError("Failed to initialize any browser driver")` (line 173).
When `get_chrome_executable()` returns `None` the `if chrome_executable:`
body is skipped and the fall-through raise is reached as well. -/
def attempt_system (env : DriverEnv) : PyResult Nat × List Backend :=
  if env.selenium_available then
    match env.chrome_executable with
    | some _ =>
        match env.system_chrome with
        | .ok d => (.ok d, [.selenium_system])
        | .exn _ => (.exn "Failed to initialize any browser driver", [.selenium_system])
    | none => (.exn "Failed to initialize any browser driver", [.selenium_system])
  else
    (.exn "Failed to initialize any browser driver", [])

/-- Second tier (lines 149-157): selenium with a webdriver_manager-managed
binary, tried only when the first tier did not return; a failure is caught
and logged and the next tier runs. -/
def attempt_wdm (env : DriverEnv) : PyResult Nat × List Backend :=
  if env.selenium_available && env.webdriver_manager_available then
    match env.wdm_chrome with
    | .ok d => (.ok d, [.selenium_webdriver_manager])
    | .exn _ =>
        ((attempt_system env).1, .selenium_webdriver_manager :: (attempt_system env).2)
  else
    attempt_system env

/-- First tier (lines 136-146): undetected_chromedriver; a failure is
caught and logged and the next tier runs. -/
def attempt_undetected (env : DriverEnv) : PyResult Nat × List Backend :=
  if env.undetected_available then
    match env.uc_chrome with
    | .ok d => (.ok d, [.undetected])
    | .exn _ =>
        ((attempt_wdm env).1, .undetected :: (attempt_wdm env).2)
  else
    attempt_wdm env

/-- `create_driver`.  `setup_chrome_options()` raises
`ImportError("No browser driver libraries available")` when neither
undetected_chromedriver nor selenium imported; otherwise the three-tier
cascade runs.  The second component records which backends were tried. -/
def create_driver (env : DriverEnv) : PyResult Nat × List Backend :=
  if env.undetected_available || env.selenium_available then
    attempt_undetected env
  else
    (.exn "No browser driver libraries available", [])

/-- Tier A is available and would succeed. -/
def uc_success (env : DriverEnv) : Bool :=
  env.undetected_available &&
    (match env.uc_chrome with | .ok _ => true | .exn _ => false)

/-- Tier B is available and would succeed. -/
def wdm_success (env : DriverEnv) : Bool :=
  env.selenium_available && env.webdriver_manager_available &&
    (match env.wdm_chrome with | .ok _ => true | .exn _ => false)

/-- Tier C is available, found a system binary, and would succeed. -/
def system_success (env : DriverEnv) : Bool :=
  env.selenium_available && env.chrome_executable.isSome &&
    (match env.system_chrome with | .ok _ => true | .exn _ => false)

theorem attempt_system_sublist (env : DriverEnv) :
    (attempt_system env).2.Sublist [Backend.selenium_system] := by
  unfold attempt_system
  by_cases h : env.selenium_available
  · simp only [h, if_pos]
    match env.chrome_executable with
    | some e =>
        match env.system_chrome with
        | .ok d => simp
        | .exn m => simp
    | none => simp
  · simp only [h]
    simp

theorem attempt_wdm_sublist (env : DriverEnv) :
    (attempt_wdm env).2.Sublist [Backend.selenium_webdriver_manager, Backend.selenium_system] := by
  unfold attempt_wdm
  by_cases h : env.selenium_available && env.webdriver_manager_available
  · simp only [h, if_pos]
    match env.wdm_chrome with
    | .ok d => simp
    | .exn m =>
        simp only []
        exact List.Sublist.cons₂ _ (attempt_system_sublist env)
  · simp only [h, if_neg, Bool.false_eq_true, ite_false]
    exact (attempt_system_sublist env).trans (List.sublist_cons_self _ _)

theorem attempt_undetected_sublist (env : DriverEnv) :
    (attempt_undetected env).2.Sublist
      [Backend.undetected, Backend.selenium_webdriver_manager, Backend.selenium_system] := by
  unfold attempt_undetected
  by_cases h : env.undetected_available
  · simp only [h, if_pos]
    match env.uc_chrome with
    | .ok d => simp
    | .exn m =>
        simp only []
        exact List.Sublist.cons₂ _ (attempt_wdm_sublist env)
  · simp only [h, Bool.false_eq_true, ite_false]
    exact (attempt_wdm_sublist env).trans (List.sublist_cons_self _ _)

theorem attempt_system_fail (env : DriverEnv) (h : system_success env = false) :
    (attempt_system env).1 = .exn "Failed to initialize any browser driver" := by
  by_cases hsel : env.selenium_available
  · match hex : env.chrome_executable with
    | some e =>
        match hsys : env.system_chrome with
        | .ok d => simp [system_success, hsel, hex, hsys] at h
        | .exn m => simp [attempt_system, hsel, hex, hsys]
    | none => simp [attempt_system, hsel, hex]
  · simp [attempt_system, hsel]

theorem attempt_system_ok (env : DriverEnv) (d : Nat) (hsel : env.selenium_available = true)
    (hex : env.chrome_executable.isSome = true) (hsys : env.system_chrome = .ok d) :
    attempt_system env = (.ok d, [.selenium_system]) := by
  match hx : env.chrome_executable with
  | some e => simp [attempt_system, hsel, hx, hsys]
  | none => rw [hx] at hex; simp at hex

theorem attempt_wdm_fst (env : DriverEnv) (hw : wdm_success env = false) :
    (attempt_wdm env).1 = (attempt_system env).1 := by
  by_cases ha : env.selenium_available && env.webdriver_manager_available
  · match hwc : env.wdm_chrome with
    | .ok d => simp [wdm_success, ha, hwc] at hw
    | .exn m => simp [attempt_wdm, ha, hwc]
  · simp [attempt_wdm, ha]

theorem attempt_wdm_ok (env : DriverEnv) (d : Nat)
    (ha : (env.selenium_available && env.webdriver_manager_available) = true)
    (hd : env.wdm_chrome = .ok d) :
    attempt_wdm env = (.ok d, [.selenium_webdriver_manager]) := by
  simp [attempt_wdm, ha, hd]

theorem attempt_undetected_fst (env : DriverEnv) (hu : uc_success env = false) :
    (attempt_undetected env).1 = (attempt_wdm env).1 := by
  by_cases h : env.undetected_available
  · match huc : env.uc_chrome with
    | .ok d => simp [uc_success, h, huc] at hu
    | .exn m => simp [attempt_undetected, h, huc]
  · simp [attempt_undetected, h]

theorem create_driver_uc_ok (env : DriverEnv) (d : Nat)
    (h1 : env.undetected_available = true) (h2 : env.uc_chrome = .ok d) :
    create_driver env = (.ok d, [.undetected]) := by
  simp [create_driver, h1, attempt_undetected, h2]

theorem create_driver_wdm_ok (env : DriverEnv) (d : Nat) (hu : uc_success env = false)
    (ha : (env.selenium_available && env.webdriver_manager_available) = true)
    (hd : env.wdm_chrome = .ok d) :
    (create_driver env).1 = .ok d ∧
      ((create_driver env).2 = [.undetected, .selenium_webdriver_manager] ∨
       (create_driver env).2 = [.selenium_webdriver_manager]) := by
  have hsel : env.selenium_available = true := by
    revert ha
    cases env.selenium_available <;> simp
  have hcond : (env.undetected_available || env.selenium_available) = true := by
    simp [hsel]
  have hwdm := attempt_wdm_ok env d ha hd
  by_cases h : env.undetected_available
  · match huc : env.uc_chrome with
    | .ok d' => simp [uc_success, h, huc] at hu
    | .exn m =>
        constructor
        · simp [create_driver, hcond, attempt_undetected, h, huc, hwdm]
        · left
          simp [create_driver, hcond, attempt_undetected, h, huc, hwdm]
  · constructor
    · simp [create_driver, hcond, attempt_undetected, h, hwdm, hsel]
    · right
      simp [create_driver, hcond, attempt_undetected, h, hwdm, hsel]

/-- C2: driver creation tries undetected_chromedriver first, then selenium
with a managed binary, then selenium with a system binary: (1) a
successful first tier returns its driver having tried nothing else; (2) if
the first tier cannot succeed, a successful second tier returns its driver
and the third tier is never tried; (3) if the first two tiers cannot
succeed, a successful third tier returns its driver; (4) when all three
tiers fail, `create_driver` raises the fatal
"Failed to initialize any browser driver" error; (5) the attempted tiers
always form a subsequence of the fixed order A, B, C — no tier is ever
retried; (6) tier B runs only if tier A could not succeed; (7) tier C runs
only if neither A nor B could succeed. -/
theorem create_driver_cascade :
    (∀ (env : DriverEnv) (d : Nat), env.undetected_available = true →
        env.uc_chrome = .ok d → create_driver env = (.ok d, [.undetected])) ∧
    (∀ (env : DriverEnv) (d : Nat), uc_success env = false →
        (env.selenium_available && env.webdriver_manager_available) = true →
        env.wdm_chrome = .ok d →
        (create_driver env).1 = .ok d ∧
          Backend.selenium_system ∉ (create_driver env).2) ∧
    (∀ (env : DriverEnv) (d : Nat), uc_success env = false → wdm_success env = false →
        env.selenium_available = true → env.chrome_executable.isSome = true →
        env.system_chrome = .ok d → (create_driver env).1 = .ok d) ∧
    (∀ env : DriverEnv, uc_success env = false → wdm_success env = false →
        system_success env = false →
        (env.undetected_available || env.selenium_available) = true →
        (create_driver env).1 = .exn "Failed to initialize any browser driver") ∧
    (∀ env : DriverEnv,
        (create_driver env).2.Sublist
          [Backend.undetected, Backend.selenium_webdriver_manager,
            Backend.selenium_system]) ∧
    (∀ env : DriverEnv, Backend.selenium_webdriver_manager ∈ (create_driver env).2 →
        uc_success env = false) ∧
    (∀ env : DriverEnv, Backend.selenium_system ∈ (create_driver env).2 →
        uc_success env = false ∧ wdm_success env = false) := by
  have hfst : ∀ env : DriverEnv,
      (env.undetected_available || env.selenium_available) = true →
      (create_driver env).1 = (attempt_undetected env).1 := by
    intro env hc
    simp [create_driver, hc]
  refine ⟨?_, ?_, ?_, ?_, ?_, ?_, ?_⟩
  · intro env d h1 h2
    exact create_driver_uc_ok env d h1 h2
  · intro env d hu ha hd
    rcases create_driver_wdm_ok env d hu ha hd with ⟨h1, h2⟩
    refine ⟨h1, ?_⟩
    rcases h2 with h2 | h2 <;> simp [h2]
  · intro env d hu hw hsel hex hd
    have hc : (env.undetected_available || env.selenium_available) = true := by simp [hsel]
    rw [hfst env hc, attempt_undetected_fst env hu, attempt_wdm_fst env hw,
      attempt_system_ok env d hsel hex hd]
  · intro env hu hw hs hc
    rw [hfst env hc, attempt_undetected_fst env hu, attempt_wdm_fst env hw]
    exact attempt_system_fail env hs
  · intro env
    by_cases hc : (env.undetected_available || env.selenium_available) = true
    · have : (create_driver env).2 = (attempt_undetected env).2 := by
        simp [create_driver, hc]
      rw [this]
      exact attempt_undetected_sublist env
    · have hcond : ¬(env.undetected_available = true ∨ env.selenium_available = true) := by
        intro h
        apply hc
        rcases h with h | h <;> simp [h]
      have : (create_driver env).2 = [] := by
        simp [create_driver, hcond]
      rw [this]
      exact List.nil_sublist _
  · intro env hmem
    by_cases hu : uc_success env = true
    · have h1 : env.undetected_available = true := by
        revert hu
        unfold uc_success
        cases env.undetected_available <;> simp
      obtain ⟨d, hd⟩ : ∃ d, env.uc_chrome = .ok d := by
        revert hu
        unfold uc_success
        match env.uc_chrome with
        | .ok d => exact fun _ => ⟨d, rfl⟩
        | .exn m => simp
      rw [create_driver_uc_ok env d h1 hd] at hmem
      simp at hmem
    · simpa using hu
  · intro env hmem
    by_cases hu : uc_success env = true
    · have h1 : env.undetected_available = true := by
        revert hu
        unfold uc_success
        cases env.undetected_available <;> simp
      obtain ⟨d, hd⟩ : ∃ d, env.uc_chrome = .ok d := by
        revert hu
        unfold uc_success
        match env.uc_chrome with
        | .ok d => exact fun _ => ⟨d, rfl⟩
        | .exn m => simp
      rw [create_driver_uc_ok env d h1 hd] at hmem
      simp at hmem
    · have hu' : uc_success env = false := by simpa using hu
      refine ⟨hu', ?_⟩
      by_cases hw : wdm_success env = true
      · have ha : (env.selenium_available && env.webdriver_manager_available) = true := by
          revert hw
          unfold wdm_success
          cases env.selenium_available <;> cases env.webdriver_manager_available <;> simp
        obtain ⟨d, hd⟩ : ∃ d, env.wdm_chrome = .ok d := by
          revert hw
          unfold wdm_success
          match env.wdm_chrome with
          | .ok d => exact fun _ => ⟨d, rfl⟩
          | .exn m => simp
        rcases create_driver_wdm_ok env d hu' ha hd with ⟨_, h2⟩
        rcases h2 with h2 | h2 <;> rw [h2] at hmem <;> simp at hmem
      · simpa using hw

/-- A concrete environment in which every backend attempt fails. -/
def envAllFail : DriverEnv :=
  ⟨true, true, true, .exn "uc failed", .exn "wdm failed", none, .exn "sys failed"⟩

/-- Witness for C2 at a concrete environment: all three tiers fail and
`create_driver` raises the fatal error. -/
theorem create_driver_cascade_witness :
    uc_success envAllFail = false ∧ wdm_success envAllFail = false ∧
    system_success envAllFail = false ∧
    (envAllFail.undetected_available || envAllFail.selenium_available) = true ∧
    (create_driver envAllFail).1 = .exn "Failed to initialize any browser driver" :=
  ⟨rfl, rfl, rfl, rfl, create_driver_cascade.2.2.2.1 envAllFail rfl rfl rfl rfl⟩

/-! ## BrowserCleanup

`src/Scrapper/Modules/BrowserCleanup.py`: the standalone `close_browser`
(lines 242-308) and the method `BrowserCleanup.close_browser`
(lines 82-152) run the identical three-method cascade (quit, then close,
then stop) with every call wrapped in `try/except`, and discard the
browser from the registry regardless of success; `close_all_browsers`
(lines 202-222) closes every registered browser and force-kills
browser-named OS processes when at least one close reported failure. -/

/-- What each shutdown method of a given browser would do if called, and
which of the optional methods the driver object has (`hasattr`). -/
structure CloseEnv where
  quit_call : PyResult Unit
  has_close : Bool
  close_call : PyResult Unit
  has_stop : Bool
  stop_call : PyResult Unit

/-- A shutdown method actually being invoked on the driver. -/
inductive CloseEvent where
  | attempt_quit
  | attempt_close
  | attempt_stop
deriving DecidableEq

/-- What one `close_browser` call produced: its boolean return value, the
registry afterwards, and the trace of shutdown methods invoked. -/
structure CloseOutcome where
  success : Bool
  registry : List Nat
  events : List CloseEvent

/-- `close_browser(browser)`: `None` returns `False` at once; otherwise
method 1 (`driver.quit()`) is tried inside `try/except`; method 2
(`browser.close()`) runs only if method 1 failed and the attribute exists;
method 3 (`browser.stop()`) runs only if still unsuccessful and the
attribute exists; finally the browser is discarded from the registry
regardless of success, and the accumulated `success` flag is returned.
Every failing call is caught, so the Python function itself never raises —
hence the `.ok` result. -/
def close_browser (env : CloseEnv) (browser : Option Nat) (registry : List Nat) :
    PyResult CloseOutcome :=
  match browser with
  | none => .ok ⟨false, registry, []⟩
  | some b =>
      let s1 : Bool := match env.quit_call with | .ok _ => true | .exn _ => false
      let ev1 : List CloseEvent := [.attempt_quit]
      let s2 : Bool :=
        if s1 then s1
        else if env.has_close then
          match env.close_call with | .ok _ => true | .exn _ => false
        else false
      let ev2 := ev1 ++ (if !s1 && env.has_close then [.attempt_close] else [])
      let s3 : Bool :=
        if s2 then s2
        else if env.has_stop then
          match env.stop_call with | .ok _ => true | .exn _ => false
        else false
      let ev3 := ev2 ++ (if !s2 && env.has_stop then [.attempt_stop] else [])
      .ok ⟨s3, registry.filter (fun x => x ≠ b), ev3⟩

/-- `driver.quit()` would succeed. -/
def quit_ok (env : CloseEnv) : Bool :=
  match env.quit_call with | .ok _ => true | .exn _ => false

/-- The driver has `close()` and calling it would succeed. -/
def close_ok (env : CloseEnv) : Bool :=
  env.has_close && (match env.close_call with | .ok _ => true | .exn _ => false)

/-- The driver has `stop()` and calling it would succeed. -/
def stop_ok (env : CloseEnv) : Bool :=
  env.has_stop && (match env.stop_call with | .ok _ => true | .exn _ => false)

/-- The boolean `close_browser` returns: some method of the cascade
succeeded. -/
def close_success (env : CloseEnv) : Bool :=
  quit_ok env || close_ok env || stop_ok env

/-- The trace of shutdown methods `close_browser` invokes. -/
def close_events (env : CloseEnv) : List CloseEvent :=
  [.attempt_quit] ++
    (if !quit_ok env && env.has_close then [.attempt_close] else []) ++
    (if !(quit_ok env || close_ok env) && env.has_stop then [.attempt_stop] else [])

theorem close_browser_some_eq (env : CloseEnv) (b : Nat) (registry : List Nat) :
    close_browser env (some b) registry =
      .ok ⟨close_success env, registry.filter (fun x => x ≠ b), close_events env⟩ := by
  obtain ⟨q, hc, c, hs, s⟩ := env
  cases q <;> cases hc <;> cases c <;> cases hs <;> cases s <;>
    simp [close_browser, close_success, close_events, quit_ok, close_ok, stop_ok]

/-- C3: `close_browser` never lets an exception escape (every shutdown
error is caught); after a call on a session the session is no longer in
the cleanup registry, whether or not any shutdown method succeeded; and
calling it twice in a row never raises, with the session gone from the
registry after the first call. -/
theorem close_browser_idempotent :
    (∀ (env : CloseEnv) (browser : Option Nat) (registry : List Nat),
        ∃ out, close_browser env browser registry = .ok out) ∧
    (∀ (env : CloseEnv) (b : Nat) (registry : List Nat) (out : CloseOutcome),
        close_browser env (some b) registry = .ok out → b ∉ out.registry) ∧
    (∀ (e1 e2 : CloseEnv) (b : Nat) (registry : List Nat),
        ∃ o1 o2, close_browser e1 (some b) registry = .ok o1 ∧
          close_browser e2 (some b) o1.registry = .ok o2 ∧
          b ∉ o1.registry ∧ b ∉ o2.registry) := by
  have hnotmem : ∀ (l : List Nat) (b : Nat), b ∉ l.filter (fun x => x ≠ b) := by
    intro l b h
    have := (List.mem_filter.1 h).2
    simp at this
  refine ⟨?_, ?_, ?_⟩
  · intro env browser registry
    match browser with
    | none => exact ⟨⟨false, registry, []⟩, rfl⟩
    | some b =>
        exact ⟨⟨close_success env, registry.filter (fun x => x ≠ b), close_events env⟩,
          close_browser_some_eq env b registry⟩
  · intro env b registry out h
    rw [close_browser_some_eq] at h
    cases h
    exact hnotmem registry b
  · intro e1 e2 b registry
    refine ⟨⟨close_success e1, registry.filter (fun x => x ≠ b), close_events e1⟩,
      ⟨close_success e2, (registry.filter (fun x => x ≠ b)).filter (fun x => x ≠ b),
        close_events e2⟩,
      close_browser_some_eq e1 b registry, close_browser_some_eq e2 b _,
      hnotmem registry b, hnotmem _ b⟩

/-- Witness for C3: closing a concrete session twice, where `quit` raises
both times and the driver has no `close`/`stop` methods, raises nothing
and leaves the registry without the session. -/
theorem close_browser_idempotent_witness :
    (close_browser ⟨.exn "quit failed", false, .ok (), false, .ok ()⟩ (some 7) [7, 3] =
        .ok ⟨false, [3], [.attempt_quit]⟩ ∧
      7 ∉ (CloseOutcome.mk false [3] [.attempt_quit]).registry) ∧
    ∃ o1 o2,
      close_browser ⟨.exn "quit failed", false, .ok (), false, .ok ()⟩ (some 7) [7, 3] =
        .ok o1 ∧
      close_browser ⟨.exn "quit failed again", false, .ok (), false, .ok ()⟩ (some 7)
        o1.registry = .ok o2 ∧
      7 ∉ o1.registry ∧ 7 ∉ o2.registry :=
  ⟨⟨rfl,
    close_browser_idempotent.2.1 ⟨.exn "quit failed", false, .ok (), false, .ok ()⟩ 7 [7, 3]
      ⟨false, [3], [.attempt_quit]⟩ rfl⟩,
    close_browser_idempotent.2.2 ⟨.exn "quit failed", false, .ok (), false, .ok ()⟩
      ⟨.exn "quit failed again", false, .ok (), false, .ok ()⟩ 7 [7, 3]⟩

/-- One iteration of the loop in `close_all_browsers`: close the browser
(the call cannot raise, every shutdown error being caught inside
`close_browser`, so the `.exn` branch is dead) and fold its boolean into
the running `success` flag. -/
def close_all_step (envs : Nat → CloseEnv) (acc : Bool × List Nat) (b : Nat) :
    Bool × List Nat :=
  match close_browser (envs b) (some b) acc.2 with
  | .ok out => (acc.1 && out.success, out.registry)
  | .exn _ => acc

/-- `close_all_browsers` (lines 202-222): an empty registry returns `True`
at once; otherwise every registered browser is closed over a snapshot of
the registry, and if any close reported failure, `force_kill_processes()`
runs.  Result: (returned boolean, final registry, whether the force-kill
ran). -/
def close_all_browsers (envs : Nat → CloseEnv) (registry : List Nat) :
    Bool × List Nat × Bool :=
  if registry.isEmpty then (true, registry, false)
  else
    let step := registry.foldl (close_all_step envs) (true, registry)
    (step.1, step.2, !step.1)

theorem close_all_step_eq (envs : Nat → CloseEnv) (acc : Bool × List Nat) (b : Nat) :
    close_all_step envs acc b =
      (acc.1 && close_success (envs b), acc.2.filter (fun x => x ≠ b)) := by
  rw [close_all_step, close_browser_some_eq]

theorem close_all_fold_fst (envs : Nat → CloseEnv) (l : List Nat) (acc : Bool × List Nat) :
    (l.foldl (close_all_step envs) acc).1 =
      (acc.1 && l.all fun b => close_success (envs b)) := by
  induction l generalizing acc with
  | nil => simp
  | cons hd tl ih =>
      rw [List.foldl_cons, close_all_step_eq, ih]
      simp [Bool.and_assoc]

/-- C4: the shutdown cascade has a fixed order — a graceful `quit` is
always invoked first; `close` is invoked only if `quit` failed; `stop` is
invoked only if both `quit` and `close` failed (either raising, or the
method being absent); and `close_all_browsers` force-kills browser-named
OS processes exactly when at least one registered session failed all three
strategies. -/
theorem close_browser_cascade_order :
    (∀ (env : CloseEnv) (b : Nat) (registry : List Nat) (out : CloseOutcome),
        close_browser env (some b) registry = .ok out →
        ∃ rest, out.events = .attempt_quit :: rest) ∧
    (∀ (env : CloseEnv) (b : Nat) (registry : List Nat) (out : CloseOutcome),
        close_browser env (some b) registry = .ok out →
        .attempt_close ∈ out.events → quit_ok env = false) ∧
    (∀ (env : CloseEnv) (b : Nat) (registry : List Nat) (out : CloseOutcome),
        close_browser env (some b) registry = .ok out →
        .attempt_stop ∈ out.events → quit_ok env = false ∧ close_ok env = false) ∧
    (∀ (envs : Nat → CloseEnv) (registry : List Nat),
        (close_all_browsers envs registry).2.2 = true ↔
          ∃ b ∈ registry, close_success (envs b) = false) := by
  refine ⟨?_, ?_, ?_, ?_⟩
  · intro env b registry out h
    rw [close_browser_some_eq] at h
    cases h
    exact ⟨(if !quit_ok env && env.has_close then [.attempt_close] else []) ++
        (if !(quit_ok env || close_ok env) && env.has_stop then [.attempt_stop] else []),
      by simp [close_events]⟩
  · intro env b registry out h hmem
    rw [close_browser_some_eq] at h
    cases h
    by_cases hq : quit_ok env = true
    · exfalso
      simp [close_events, hq] at hmem
    · simpa using hq
  · intro env b registry out h hmem
    rw [close_browser_some_eq] at h
    cases h
    by_cases hq : quit_ok env = true
    · exfalso
      simp [close_events, hq] at hmem
    · have hq' : quit_ok env = false := by simpa using hq
      refine ⟨hq', ?_⟩
      by_cases hc : close_ok env = true
      · exfalso
        have hhc : env.has_close = true := by
          revert hc
          unfold close_ok
          cases env.has_close <;> simp
        simp [close_events, hq', hc, hhc] at hmem
      · simpa using hc
  · intro envs registry
    match registry with
    | [] => simp [close_all_browsers]
    | r :: rs =>
        have hne : ((r :: rs).isEmpty) = false := rfl
        rw [close_all_browsers]
        simp only [hne]
        rw [close_all_fold_fst]
        simp [List.all_eq_true]

/-- The environment for the C4 witness: `quit` raises, `close` exists but
raises, `stop` exists and succeeds. -/
def envStopOnly : CloseEnv := ⟨.exn "quit failed", true, .exn "close failed", true, .ok ()⟩

/-- Witness for C4 at a concrete session: with `quit` and `close` both
failing, the cascade invoked quit, then close, then stop — and the `stop`
attempt indeed implies the first two failed. -/
theorem close_browser_cascade_order_witness :
    close_browser envStopOnly (some 1) [1] =
      .ok ⟨true, [], [.attempt_quit, .attempt_close, .attempt_stop]⟩ ∧
    quit_ok envStopOnly = false ∧ close_ok envStopOnly = false :=
  ⟨rfl,
    close_browser_cascade_order.2.2.1 envStopOnly 1 [1]
      ⟨true, [], [.attempt_quit, .attempt_close, .attempt_stop]⟩ rfl (by decide)⟩

/-! ## disable_filters

`src/Scrapper/BestiaryImageScrapper.py` lines 296-392: gather the filter
pills in `data-state='yes'` plus the default-deselected pills in
`data-state='no'` (the `data-state='ignore'` pills are excluded), click
each of them, requery, and repeat while any remain — with the explicit
bound `max_attempts = 3` on the number of passes "to avoid infinite
loops". -/

/-- The `data-state` attribute of a filter pill. -/
inductive PillState where
  | yes
  | no
  | ignore
deriving DecidableEq

/-- A filter pill: whether it carries the `fltr__mini-pill--default-desel`
class, and its current `data-state`. -/
structure Pill where
  desel : Bool
  state : PillState
deriving DecidableEq

/-- The filter container: the list of pills, addressed by position. -/
abbrev FilterDom := List Pill

/-- Indices of pills matching a predicate, in document order (a
`find_elements` query). -/
def pill_indices (p : Pill → Bool) (dom : FilterDom) : List Nat :=
  (dom.enum.filter fun x => p x.2).map Prod.fst

/-- `.fltr__mini-pill[data-state='yes']`. -/
def active_filters (dom : FilterDom) : List Nat :=
  pill_indices (fun p => p.state == .yes) dom

/-- `.fltr__mini-pill--default-desel[data-state='no']`. -/
def deselected_filters (dom : FilterDom) : List Nat :=
  pill_indices (fun p => p.desel && p.state == .no) dom

/-- `.fltr__mini-pill[data-state='ignore']`. -/
def ignored_filters (dom : FilterDom) : List Nat :=
  pill_indices (fun p => p.state == .ignore) dom

/-- One pass of the inner `for` loop: scroll to and JS-click each listed
pill in order (`click` is the site's response to a click on position `i`). -/
def click_pass (click : FilterDom → Nat → FilterDom) (dom : FilterDom)
    (idxs : List Nat) : FilterDom :=
  idxs.foldl click dom

/-- The `while attempt < max_attempts and all_filters:` loop of
`disable_filters`, lines 325-376. -/
def max_attempts : Nat := 3

/-- The bounded requery loop: given remaining attempts, the current page
and the pill list gathered for this pass, returns the final page, the
positions clicked in order, and the number of passes run. -/
def disable_filters_go (click : FilterDom → Nat → FilterDom) :
    Nat → FilterDom → List Nat → FilterDom × List Nat × Nat
  | 0, dom, _ => (dom, [], 0)
  | fuel + 1, dom, all =>
      if all.isEmpty then (dom, [], 0)
      else
        let dom' := click_pass click dom all
        let all' := active_filters dom' ++ deselected_filters dom'
        if all'.isEmpty then (dom', all, 1)
        else
          let r := disable_filters_go click fuel dom' all'
          (r.1, all ++ r.2.1, r.2.2 + 1)

/-- `disable_filters`: gather the non-ignored pills once, then run the
capped click-and-requery loop. -/
def disable_filters (click : FilterDom → Nat → FilterDom) (dom : FilterDom) :
    FilterDom × List Nat × Nat :=
  disable_filters_go click max_attempts dom
    (active_filters dom ++ deselected_filters dom)

/-- The mocked click of the spec's scenario: clicking a pill disables it —
its `data-state` becomes `ignore`. -/
def click_to_ignore : FilterDom → Nat → FilterDom
  | [], _ => []
  | p :: rest, 0 => ⟨p.desel, .ignore⟩ :: rest
  | p :: rest, n + 1 => p :: click_to_ignore rest n

/-- The mocked pill list of the spec's scenario: three pills, two in
`data-state=yes`, one in `data-state=ignore`. -/
def pillScenario : FilterDom := [⟨false, .yes⟩, ⟨false, .yes⟩, ⟨false, .ignore⟩]

theorem disable_filters_go_passes (click : FilterDom → Nat → FilterDom)
    (fuel : Nat) (dom : FilterDom) (all : List Nat) :
    (disable_filters_go click fuel dom all).2.2 ≤ fuel := by
  induction fuel generalizing dom all with
  | zero => simp [disable_filters_go]
  | succ n ih =>
      rw [disable_filters_go]
      by_cases h : all.isEmpty
      · simp [h]
      · simp only [h, Bool.false_eq_true, if_false, ite_false]
        by_cases h2 : (active_filters (click_pass click dom all) ++
            deselected_filters (click_pass click dom all)).isEmpty
        · simp [h2]
        · simp only [h2, Bool.false_eq_true, if_false, ite_false]
          have := ih (click_pass click dom all)
            (active_filters (click_pass click dom all) ++
              deselected_filters (click_pass click dom all))
          omega

/-! ### The ConditionScrapper variant of disable_filters

`src/Scrapper/ConditionScrapper.py` lines 85-107: a bare `while True:`
loop that re-queries `div.fltr__mini-pill:not([data-state='ignore'])` and
clicks every returned pill (each click failure caught and logged),
breaking out only when the query comes back empty — this variant has no
attempt cap. -/

/-- `div.fltr__mini-pill:not([data-state='ignore'])`. -/
def cond_non_ignored (dom : FilterDom) : List Nat :=
  pill_indices (fun p => !(p.state == .ignore)) dom

/-- The `while True:` loop of the ConditionScrapper `disable_filters`,
allowed to run for at most `fuel` iterations: `some (page, clicked)` when
the loop broke out (no non-ignored pill left) within the budget, `none`
when it was still running after `fuel` iterations.  The Python loop
carries no bound of its own, so `none` at every `fuel` means the loop
never exits. -/
def cond_disable_filters_go (click : FilterDom → Nat → FilterDom) :
    Nat → FilterDom → Option (FilterDom × List Nat)
  | 0, _ => none
  | fuel + 1, dom =>
      let pills := cond_non_ignored dom
      if pills.isEmpty then some (dom, [])
      else
        match cond_disable_filters_go click fuel (click_pass click dom pills) with
        | some r => some (r.1, pills ++ r.2)
        | none => none

theorem cond_disable_filters_diverges (fuel : Nat) :
    cond_disable_filters_go (fun d _ => d) fuel [⟨false, .yes⟩] = none := by
  induction fuel with
  | zero => rfl
  | succ n ih =>
      have key : cond_disable_filters_go (fun d _ => d) (n + 1) [⟨false, .yes⟩] =
          match cond_disable_filters_go (fun d _ => d) n [⟨false, .yes⟩] with
          | some r => some (r.1, [0] ++ r.2)
          | none => none := rfl
      rw [key, ih]

/-- Counterexample to C8 as stated: the claim also covers the
ConditionScrapper `disable_filters` (lines 85-107), whose `while True:`
re-processing loop has no maximum-attempt cap — on a single pill stuck in
`data-state=yes` (its click leaves the page unchanged), the loop is still
running after `max_attempts + 1` passes, and still after 100 passes. -/
theorem cond_disable_filters_uncapped :
    cond_disable_filters_go (fun d _ => d) (max_attempts + 1) [⟨false, .yes⟩] = none ∧
    cond_disable_filters_go (fun d _ => d) 100 [⟨false, .yes⟩] = none := by
  constructor <;> decide

/-- C8, amended: on the spec's mocked pill list (two `yes` pills, one
`ignore` pill) both `disable_filters` variants click exactly the two
non-ignored pills — the ignored pill (position 2) is never clicked — and
terminate (the Bestiary variant after one pass, the Condition variant
within two iterations, its click moving each pill to `ignore`).  The
BestiaryImageScrapper variant's re-processing is bounded by
`max_attempts` for every click behaviour and every page; the
ConditionScrapper variant has no such cap — with a click that leaves a
pill non-ignored, its loop is still running whatever iteration budget it
is given. -/
theorem disable_filters_clicks_non_ignored :
    ((disable_filters click_to_ignore pillScenario).2.1 = [0, 1] ∧
      active_filters pillScenario = [0, 1] ∧
      deselected_filters pillScenario = [] ∧
      ignored_filters pillScenario = [2] ∧
      (2 : Nat) ∉ (disable_filters click_to_ignore pillScenario).2.1 ∧
      (disable_filters click_to_ignore pillScenario).2.2 = 1) ∧
    (∀ (click : FilterDom → Nat → FilterDom) (dom : FilterDom),
        (disable_filters click dom).2.2 ≤ max_attempts) ∧
    (cond_non_ignored pillScenario = [0, 1] ∧
      cond_disable_filters_go click_to_ignore 2 pillScenario =
        some ([⟨false, .ignore⟩, ⟨false, .ignore⟩, ⟨false, .ignore⟩], [0, 1])) ∧
    (∀ fuel : Nat,
        cond_disable_filters_go (fun d _ => d) fuel [⟨false, .yes⟩] = none) :=
  ⟨by decide, fun click dom => disable_filters_go_passes click max_attempts dom _,
    ⟨by decide, by decide⟩, cond_disable_filters_diverges⟩

/-! ## ConfigManager

`src/Scrapper/Modules/ConfigManager.py`: `_deep_merge` (lines 162-174),
`_load_from_env` (lines 176-201), `get` (lines 203-222), `__new__`
(lines 87-94) and `__init__` (lines 96-124). -/

/-- Python `str.split(sep)` for a one-character separator: `""` splits to
`[""]`, adjacent separators produce empty pieces. -/
def splitChars (sep : Char) : List Char → List (List Char)
  | [] => [[]]
  | c :: cs =>
      if c = sep then [] :: splitChars sep cs
      else
        match splitChars sep cs with
        | [] => [[c]]
        | w :: ws => (c :: w) :: ws

/-- `key_path.split('.')`. -/
def pySplit (s : String) (sep : Char) : List String :=
  (splitChars sep s.data).map fun cs => ⟨cs⟩

/-- Python `str.split("__")`: scan left to right, splitting at each
non-overlapping occurrence of the two-character separator. -/
def splitDunder : List Char → List (List Char)
  | [] => [[]]
  | '_' :: '_' :: rest => [] :: splitDunder rest
  | c :: cs =>
      match splitDunder cs with
      | [] => [[c]]
      | w :: ws => (c :: w) :: ws

/-- `key.startswith(prefix)`. -/
def py_startswith (s p : String) : Bool := p.data.isPrefixOf s.data

/-- `key[len("SCRAPER_"):].lower().split('__')` from `_load_from_env`. -/
def env_key_parts (key : String) : List String :=
  (splitDunder ((key.data.drop 8).map Char.toLower)).map fun cs => ⟨cs⟩

/-- Python `value[key]` for a string subscript: a dict lookup succeeds on a
present key; a missing key (`KeyError`) or a non-dict value (`TypeError`)
both end the lookup. -/
def getKey : JValue → String → Option JValue
  | .obj fields, k => store_get fields k
  | _, _ => none

/-- The `for key in keys: value = value[key]` walk of `ConfigManager.get`. -/
def getPath : JValue → List String → Option JValue
  | v, [] => some v
  | v, k :: ks =>
      match getKey v k with
      | some v' => getPath v' ks
      | none => none

/-- `ConfigManager.get(key_path, default)` (lines 203-222): split the path
on dots, walk the nested dicts, and return `default` on `KeyError` or
`TypeError`. -/
def config_get (cfg : JValue) (key_path : String) (default : JValue) : JValue :=
  match getPath cfg (pySplit key_path '.') with
  | some v => v
  | none => default

mutual

/-- The merged value for one key of the source: when the target holds a
dict at the key and the source value is a dict too, recurse into both;
otherwise the source dict just overwrites. -/
def merge_at : Option JValue → List (String × JValue) → JValue
  | some (.obj tsub), sub => .obj (deep_merge_fields tsub sub)
  | _, sub => .obj sub
termination_by _o sub => sizeOf sub + 1

/-- `_deep_merge(target, source)` (lines 162-174): for each key of
`source`, recurse when both sides hold dicts, otherwise overwrite
(`target[key] = value`). -/
def deep_merge_fields : List (String × JValue) → List (String × JValue) →
    List (String × JValue)
  | tf, [] => tf
  | tf, (k, .obj sub) :: rest =>
      deep_merge_fields (store_set tf k (merge_at (store_get tf k) sub)) rest
  | tf, (k, v) :: rest => deep_merge_fields (store_set tf k v) rest
termination_by _tf src => sizeOf src

end

/-- The navigation-and-assignment of `_load_from_env` for one variable:
walk `key_parts[:-1]`, creating `{}` for a missing part; assign the parsed
value at the last part.  Stepping into an existing non-dict intermediate
raises an (uncaught) `TypeError`. -/
def env_set_path : List (String × JValue) → List String → JValue →
    PyResult (List (String × JValue))
  | fields, [], _ => .ok fields
  | fields, [k], v => .ok (store_set fields k v)
  | fields, k :: k2 :: ks, v =>
      match store_get fields k with
      | some (.obj sub) =>
          (env_set_path sub (k2 :: ks) v).map fun sub' => store_set fields k (.obj sub')
      | some _ => .exn "TypeError"
      | none =>
          (env_set_path [] (k2 :: ks) v).map fun sub' => store_set fields k (.obj sub')

/-- `_load_from_env` (lines 176-201): for every environment variable whose
name starts with `SCRAPER_`, set the value at the `__`-split lowered key
path.  `parse` is `json.loads` with the fall-back to the raw string. -/
def load_from_env (parse : String → JValue) (env : List (String × String))
    (cfg : List (String × JValue)) : PyResult (List (String × JValue)) :=
  match env with
  | [] => .ok cfg
  | (k, v) :: rest =>
      if py_startswith k "SCRAPER_" then
        match env_set_path cfg (env_key_parts k) (parse v) with
        | .ok cfg' => load_from_env parse rest cfg'
        | .exn e => .exn e
      else
        load_from_env parse rest cfg

/-- The configuration just before the environment overlay: the defaults,
with `config["system"]` set by `_add_system_info`, deep-merged with the
configuration file when one was given and loaded (`__init__`
lines 110-118). -/
def merged_config (base sys : List (String × JValue))
    (file_config : Option (List (String × JValue))) : List (String × JValue) :=
  let after_sys := store_set base "system" (.obj sys)
  match file_config with
  | some f => deep_merge_fields after_sys f
  | none => after_sys

/-- `__init__` (lines 96-124): defaults, system info, optional file merge,
then the environment overlay — in that order, so the environment wins. -/
def config_manager_init (parse : String → JValue) (base sys : List (String × JValue))
    (file_config : Option (List (String × JValue))) (env : List (String × String)) :
    PyResult (List (String × JValue)) :=
  load_from_env parse env (merged_config base sys file_config)

theorem load_env_single (parse : String → JValue) (m A B : List (String × JValue))
    (v : String) (hA : store_get m "a" = some (.obj A))
    (hB : store_get A "b" = some (.obj B)) :
    load_from_env parse [("SCRAPER_A__B__C", v)] m =
      .ok (store_set m "a"
        (.obj (store_set A "b" (.obj (store_set B "c" (parse v)))))) := by
  have hkey : env_key_parts "SCRAPER_A__B__C" = ["a", "b", "c"] := rfl
  have hstart : py_startswith "SCRAPER_A__B__C" "SCRAPER_" = true := rfl
  have hset2 : env_set_path A ["b", "c"] (parse v) =
      .ok (store_set A "b" (.obj (store_set B "c" (parse v)))) := by
    simp [env_set_path, hB, PyResult.map]
  have hset1 : env_set_path m ["a", "b", "c"] (parse v) =
      .ok (store_set m "a" (.obj (store_set A "b" (.obj (store_set B "c" (parse v)))))) := by
    simp [env_set_path, hA, hB, PyResult.map]
  simp [load_from_env, hstart, hkey, hset1]

/-- C1: for every configuration, `get("a.b.c", default)` returns `default`
when the walk dies on an absent intermediate key or a non-mapping
intermediate value; and when the environment holds `SCRAPER_A__B__C` at
initialization, `get("a.b.c")` on the initialized configuration returns
the parsed value of that variable whatever value the merged
defaults-plus-file configuration held at `a.b.c` — the environment overlay
runs after the file merge, so the environment wins. -/
theorem config_get_env_overlay :
    (∀ (cfg : JValue) (d : JValue),
        Option.bind (getKey cfg "a") (fun w => getKey w "b") = none →
        config_get cfg "a.b.c" d = d) ∧
    (∀ (parse : String → JValue) (base sys : List (String × JValue))
        (file_config : Option (List (String × JValue))) (v : String) (d : JValue)
        (A B : List (String × JValue)),
        store_get (merged_config base sys file_config) "a" = some (.obj A) →
        store_get A "b" = some (.obj B) →
        ∃ cfg', config_manager_init parse base sys file_config
            [("SCRAPER_A__B__C", v)] = .ok cfg' ∧
          config_get (.obj cfg') "a.b.c" d = parse v) := by
  constructor
  · intro cfg d h
    have hsplit : pySplit "a.b.c" '.' = ["a", "b", "c"] := rfl
    simp only [config_get, hsplit]
    match ha : getKey cfg "a" with
    | none => simp [getPath, ha]
    | some va =>
        have hb : getKey va "b" = none := by
          rw [ha] at h
          simpa using h
        simp [getPath, ha, hb]
  · intro parse base sys file_config v d A B hA hB
    refine ⟨store_set (merged_config base sys file_config) "a"
      (.obj (store_set A "b" (.obj (store_set B "c" (parse v))))), ?_, ?_⟩
    · exact load_env_single parse (merged_config base sys file_config) A B v hA hB
    · have hsplit : pySplit "a.b.c" '.' = ["a", "b", "c"] := rfl
      have g1 : getKey (.obj (store_set (merged_config base sys file_config) "a"
            (.obj (store_set A "b" (.obj (store_set B "c" (parse v))))))) "a" =
          some (.obj (store_set A "b" (.obj (store_set B "c" (parse v))))) := by
        simp [getKey, store_get_store_set_self]
      have g2 : getKey (.obj (store_set A "b" (.obj (store_set B "c" (parse v))))) "b" =
          some (.obj (store_set B "c" (parse v))) := by
        simp [getKey, store_get_store_set_self]
      have g3 : getKey (.obj (store_set B "c" (parse v))) "c" = some (parse v) := by
        simp [getKey, store_get_store_set_self]
      simp only [config_get, hsplit, getPath, g1, g2, g3]

/-- Concrete defaults for the C1 witness: they already provide `a.b.c`. -/
def cfgBase : List (String × JValue) :=
  [("a", .obj [("b", .obj [("c", .str "from-defaults")])])]

/-- Concrete configuration file for the C1 witness: it also provides a
value at `a.b.c`. -/
def cfgFile : List (String × JValue) :=
  [("a", .obj [("b", .obj [("c", .str "from-file")])])]

/-- The dict at key `a` of the merged defaults-plus-file configuration. -/
def cfgA : List (String × JValue) := [("b", .obj [("c", .str "from-file")])]

/-- The dict at key `a.b` of the merged defaults-plus-file configuration. -/
def cfgB : List (String × JValue) := [("c", .str "from-file")]

/-- Witness for C1 at concrete inputs: a configuration whose `a` is a
plain string makes `get("a.b.c", default)` return the default; and with
both the defaults and the file providing `a.b.c`, initializing with
`SCRAPER_A__B__C=env-value` makes `get("a.b.c")` return the parsed
environment value. -/
theorem config_get_env_overlay_witness :
    (Option.bind (getKey (.obj [("a", .str "leaf")]) "a") (fun w => getKey w "b") = none ∧
      config_get (.obj [("a", .str "leaf")]) "a.b.c" (.str "fallback") = .str "fallback") ∧
    (store_get (merged_config cfgBase [] (some cfgFile)) "a" = some (.obj cfgA) ∧
      store_get cfgA "b" = some (.obj cfgB) ∧
      ∃ cfg', config_manager_init (fun s => .str s) cfgBase [] (some cfgFile)
          [("SCRAPER_A__B__C", "env-value")] = .ok cfg' ∧
        config_get (.obj cfg') "a.b.c" (.str "fallback") = .str "env-value") := by
  have hA : store_get (merged_config cfgBase [] (some cfgFile)) "a" = some (.obj cfgA) := by
    simp [merged_config, cfgBase, cfgFile, cfgA, deep_merge_fields, merge_at,
      store_get, store_set]
  have hB : store_get cfgA "b" = some (.obj cfgB) := rfl
  exact ⟨⟨rfl, config_get_env_overlay.1 (.obj [("a", .str "leaf")]) (.str "fallback") rfl⟩,
    hA, hB,
    config_get_env_overlay.2 (fun s => .str s) cfgBase [] (some cfgFile) "env-value"
      (.str "fallback") cfgA cfgB hA hB⟩

/-- A `ConfigManager` object: an identity (so "same instance" is
expressible), its configuration dict, and the `_initialized` flag. -/
structure CMInstance where
  instId : Nat
  config : List (String × JValue)
  initialized : Bool

/-- `ConfigManager.__new__` (lines 87-94): create the singleton on the
first call (`_initialized = False`), return the existing `_instance`
afterwards.  Returns the instance and the class attribute `_instance`. -/
def cm_new (g : Option CMInstance) (freshId : Nat) : CMInstance × Option CMInstance :=
  match g with
  | some inst => (inst, some inst)
  | none =>
      let inst : CMInstance := ⟨freshId, [], false⟩
      (inst, some inst)

/-- `ConfigManager.__init__` (lines 96-124): return immediately when the
instance is already initialized — the `config_file` and `logger` arguments
of a later construction are ignored and the named file is never loaded;
otherwise build the configuration (defaults, system info, optional file
merge, environment overlay) and set `_initialized = True`. -/
def cm_init (inst : CMInstance) (parse : String → JValue)
    (base sys : List (String × JValue)) (file_config : Option (List (String × JValue)))
    (env : List (String × String)) : PyResult CMInstance :=
  if inst.initialized then .ok inst
  else
    (config_manager_init parse base sys file_config env).map
      fun cfg => ⟨inst.instId, cfg, true⟩

/-- `ConfigManager(config_file)`: `__new__` then `__init__` on the same
object; `_instance` ends up holding that object (when `__init__` raises,
`_instance` still holds the not-yet-initialized object). -/
def cm_construct (g : Option CMInstance) (freshId : Nat) (parse : String → JValue)
    (base sys : List (String × JValue)) (file_config : Option (List (String × JValue)))
    (env : List (String × String)) : PyResult CMInstance × Option CMInstance :=
  let (inst, g') := cm_new g freshId
  match cm_init inst parse base sys file_config env with
  | .ok inst' => (.ok inst', some inst')
  | .exn e => (.exn e, g')

/-- `get_config()` (lines 331-342): the module-level singleton instance. -/
def get_config (g : Option CMInstance) : Option CMInstance := g

/-- C10: once an initialized instance exists, every further
`ConfigManager(...)` call returns that very instance unchanged — whatever
`config_file` the call names, it is never loaded and no configuration
value changes — and leaves it as the global instance; and a successful
first construction publishes its instance as the global one, marked
initialized, which `get_config()` then returns. -/
theorem config_manager_singleton :
    (∀ (inst : CMInstance) (freshId : Nat) (parse : String → JValue)
        (base sys : List (String × JValue))
        (file_config : Option (List (String × JValue))) (env : List (String × String)),
        inst.initialized = true →
        cm_construct (some inst) freshId parse base sys file_config env =
          (.ok inst, some inst)) ∧
    (∀ (freshId : Nat) (parse : String → JValue) (base sys : List (String × JValue))
        (file_config : Option (List (String × JValue))) (env : List (String × String))
        (inst : CMInstance) (g' : Option CMInstance),
        cm_construct none freshId parse base sys file_config env = (.ok inst, g') →
        g' = some inst ∧ inst.initialized = true ∧ get_config g' = some inst) := by
  constructor
  · intro inst freshId parse base sys file_config env h
    simp [cm_construct, cm_new, cm_init, h]
  · intro freshId parse base sys file_config env inst g' h
    rw [cm_construct] at h
    simp only [cm_new] at h
    rw [cm_init] at h
    simp only [if_neg (by simp : ¬(false = true))] at h
    match hinit : config_manager_init parse base sys file_config env with
    | .ok cfg =>
        rw [hinit] at h
        simp [PyResult.map] at h
        obtain ⟨h1, h2⟩ := h
        subst h1
        subst h2
        exact ⟨rfl, rfl, rfl⟩
    | .exn e =>
        rw [hinit] at h
        simp [PyResult.map] at h

/-- The instance created by a concrete first construction (no config
file, empty environment): defaults plus the `system` entry. -/
def cmFirst : CMInstance := ⟨0, [("system", .obj [])], true⟩

/-- Witness for C10 at concrete inputs: after a first construction, a
second `ConfigManager(...)` naming a config file returns the same
instance untouched — the file is never merged. -/
theorem config_manager_singleton_witness :
    cm_construct none 0 (fun s => .str s) [] [] none [] = (.ok cmFirst, some cmFirst) ∧
    (some cmFirst = some cmFirst ∧ cmFirst.initialized = true ∧
      get_config (some cmFirst) = some cmFirst) ∧
    cm_construct (some cmFirst) 1 (fun s => .str s) cfgBase [] (some cfgFile) [] =
      (.ok cmFirst, some cmFirst) :=
  ⟨rfl,
    config_manager_singleton.2 0 (fun s => .str s) [] [] none [] cmFirst (some cmFirst) rfl,
    config_manager_singleton.1 cmFirst 1 (fun s => .str s) cfgBase [] (some cfgFile) [] rfl⟩
